import Mathlib

/-!
Shallow embedding of the BelWise SMS backend (src/App.py) and proofs about
its tenant routing, usage metering, and overage-billing reconciliation.

Python dictionaries are modelled as ordered association lists, Python
exceptions as an explicit error type threaded through Except, and the
external collaborators (SMS gateway, Retell agent, Stripe, Postgres) as
oracle parameters describing the outcome of each call.
-/

/-- Python str.strip: drop leading and trailing whitespace characters. -/
def pyStrip (s : String) : String :=
  String.mk (((s.data.dropWhile Char.isWhitespace).reverse.dropWhile Char.isWhitespace).reverse)

/-- Python str.lower, character by character (ASCII case folding is all the
app compares: the plan names "basic" and "advanced"). -/
def pyLower (s : String) : String := String.mk (s.data.map Char.toLower)

/-- Core of normalize_phone on the digit-only character list: the two
sequential rewrites of App.py lines 105-111.  s.startswith "0032" is
s.take 4 = "0032"; "32" + s[4:] is '3' :: '2' :: s.drop 4; likewise for the
national leading-zero rewrite guarded by the length-9-or-10 test. -/
def normDigits (s : List Char) : List Char :=
  let s1 := if s.take 4 = ['0', '0', '3', '2'] then '3' :: '2' :: s.drop 4 else s
  if s1.take 1 = ['0'] ∧ (s1.length = 9 ∨ s1.length = 10) then '3' :: '2' :: s1.drop 1 else s1

/-- normalize_phone (App.py lines 96-112): strip the raw string, keep digits
only, collapse a leading "0032" to "32", and replace a national leading "0"
by "32" when the digit count is 9 or 10. -/
def normalize_phone (raw : String) : String :=
  String.mk (normDigits ((pyStrip raw).data.filter Char.isDigit))

/-- Tenant record as built by load_tenants_from_csv (App.py lines 177-186). -/
structure Tenant where
  tenant_id : String
  stripe_customer_id : String
  company_name : String
  company_number : String
  virtual_number : String
  retell_agent_id : String
  plan : String
  opening_line : String
deriving DecidableEq

/-- Python dict lookup d.get(k) on an ordered association list. -/
def pyDictGet {α : Type} (d : List (String × α)) (k : String) : Option α :=
  match d with
  | [] => Option.none
  | (k', v) :: t => if k' = k then some v else pyDictGet t k

/-- Python dict assignment d[k] = v: replace the binding in place if the key
exists, otherwise append it. -/
def pyDictInsert {α : Type} (d : List (String × α)) (k : String) (v : α) :
    List (String × α) :=
  match d with
  | [] => [(k, v)]
  | (k', v') :: t => if k' = k then (k, v) :: t else (k', v') :: pyDictInsert t k v

/-- get_tenant_by_receiver (App.py lines 194-197): empty receiver resolves to
nothing, otherwise look the normalized receiver up in TENANTS_BY_VIRTUAL. -/
def get_tenant_by_receiver (byVirtual : List (String × Tenant)) (receiver : String) :
    Option Tenant :=
  if receiver = "" then Option.none
  else pyDictGet byVirtual (normalize_phone receiver)

/-- One parsed CSV row as csv.DictReader yields it: each expected column is
present with a value or absent (none). -/
structure RawRow where
  tenant_id : Option String
  stripe_customer_id : Option String
  company_name : Option String
  company_number : Option String
  virtual_number : Option String
  retell_agent_id : Option String
  plan : Option String
  opening_line : Option String
deriving DecidableEq

/-- The two global tenant dicts TENANTS_BY_VIRTUAL and TENANTS_BY_ID
(App.py lines 143-144). -/
structure Registry where
  byVirtual : List (String × Tenant)
  byId : List (String × Tenant)
deriving DecidableEq

/-- The tenant dict built from one CSV row (App.py lines 170-186), including
the fallback of tenant_id to the raw virtual number. -/
def row_tenant (row : RawRow) : Tenant :=
  let virtual_raw := pyStrip (row.virtual_number.getD "")
  let tid0 := pyStrip (row.tenant_id.getD "")
  { tenant_id := if tid0 = "" then virtual_raw else tid0
    stripe_customer_id := pyStrip (row.stripe_customer_id.getD "")
    company_name := pyStrip (row.company_name.getD "")
    company_number := pyStrip (row.company_number.getD "")
    virtual_number := virtual_raw
    retell_agent_id := pyStrip (row.retell_agent_id.getD "")
    plan := pyStrip (row.plan.getD "")
    opening_line := pyStrip (row.opening_line.getD "") }

/-- One iteration of the reader loop (App.py lines 169-189): rows with an
empty virtual_number are skipped; otherwise both dicts are updated by plain
assignment, so an existing binding for the same key is overwritten. -/
def load_row (reg : Registry) (row : RawRow) : Registry :=
  let virtual_raw := pyStrip (row.virtual_number.getD "")
  if virtual_raw = "" then reg
  else
    let tenant := row_tenant row
    { byVirtual := pyDictInsert reg.byVirtual (normalize_phone virtual_raw) tenant
      byId := pyDictInsert reg.byId tenant.tenant_id tenant }

/-- load_tenants_from_csv (App.py lines 150-191).  fs models the file at
path: none when os.path.exists fails, otherwise the parsed rows.  The code
resets both global dicts to empty before the existence check, so the result
never depends on the previous registry, which is passed here only to record
the state the call starts from. -/
def load_tenants_from_csv (fs : Option (List RawRow)) (_prev : Registry) : Registry :=
  match fs with
  | Option.none => { byVirtual := [], byId := [] }
  | some rows => List.foldl load_row { byVirtual := [], byId := [] } rows

/-- A Python exception as the DB layer distinguishes them: psycopg2's
UndefinedTable, or any other exception carrying a message. -/
inductive PyErr where
  | undefinedTable : PyErr
  | otherErr : String → PyErr
deriving DecidableEq

/-- The durable monthly_usage table: one row per (month, tenant_id) key with
its outbound_count. -/
abbrev Usage := List ((String × String) × Int)

/-- The upsert of bump_monthly_outbound (App.py lines 235-244): INSERT ... ON
CONFLICT (month, tenant_id) DO UPDATE SET outbound_count =
outbound_count + EXCLUDED.outbound_count. -/
def usage_upsert (u : Usage) (k : String × String) (amount : Int) : Usage :=
  match u with
  | [] => [(k, amount)]
  | (k', n) :: t => if k' = k then (k', n + amount) :: t else (k', n) :: usage_upsert t k amount

/-- One attempt to execute the upsert against Postgres: att is none when the
statement succeeds and some e when it raises e. -/
def try_upsert (att : Option PyErr) (k : String × String) (amount : Int) (u : Usage) :
    Except PyErr Usage :=
  match att with
  | Option.none => Except.ok (usage_upsert u k amount)
  | some e => Except.error e

/-- bump_monthly_outbound (App.py lines 228-264) with what its caller can
observe made explicit in the Except layer.  dbUrl is db_available(); att1 is
the outcome of the first execute, att2 of the retry that runs only after an
UndefinedTable error.  Every code path is wrapped in try/except blocks that
log and fall through, so every branch returns ok. -/
def bump_monthly_outboundE (dbUrl : Bool) (att1 att2 : Option PyErr)
    (month tenant_id : String) (amount : Int) (u : Usage) : Except PyErr Usage :=
  if dbUrl = false then Except.ok u
  else
    match try_upsert att1 (month, tenant_id) amount u with
    | Except.ok u' => Except.ok u'
    | Except.error PyErr.undefinedTable =>
        (match try_upsert att2 (month, tenant_id) amount u with
         | Except.ok u' => Except.ok u'
         | Except.error _ => Except.ok u)
    | Except.error (PyErr.otherErr _) => Except.ok u

/-- The usage table bump_monthly_outbound leaves behind. -/
def bump_monthly_outbound (dbUrl : Bool) (att1 att2 : Option PyErr)
    (month tenant_id : String) (amount : Int) (u : Usage) : Usage :=
  match bump_monthly_outboundE dbUrl att1 att2 month tenant_id amount u with
  | Except.ok u' => u'
  | Except.error _ => u

/-- Outcome of the requests.post call to the Smstools send endpoint: an HTTP
response with status code and body, or a raised transport error. -/
inductive GatewayOutcome where
  | response : Int → String → GatewayOutcome
  | transportError : String → GatewayOutcome
deriving DecidableEq

/-- The JSON body send_sms posts to the gateway (App.py lines 359-363); the
to_number field carries the payload's "to" entry. -/
structure SendRequest where
  message : String
  to_number : String
  sender : String
deriving DecidableEq

/-- send_sms (App.py lines 347-378) with its exception behavior explicit:
the result is the list of gateway requests made (empty or one) and the usage
table afterwards.  cid and csec are the Smstools credentials, gw the outcome
of the gateway call, month the current month_key().  Every failure path is
caught and logged, so all branches return ok. -/
def send_smsE (cid csec : String) (gw : GatewayOutcome) (dbUrl : Bool)
    (att1 att2 : Option PyErr) (month : String) (tenant : Tenant)
    (to_number message : String) (u : Usage) :
    Except PyErr (List SendRequest × Usage) :=
  if to_number = "" ∨ message = "" then Except.ok ([], u)
  else if cid = "" ∨ csec = "" then Except.ok ([], u)
  else
    match gw with
    | GatewayOutcome.transportError _ =>
        Except.ok ([{ message := message, to_number := to_number, sender := tenant.virtual_number }], u)
    | GatewayOutcome.response status _ =>
        if 200 ≤ status ∧ status < 300 then
          Except.ok ([{ message := message, to_number := to_number, sender := tenant.virtual_number }],
            bump_monthly_outbound dbUrl att1 att2 month tenant.tenant_id 1 u)
        else
          Except.ok ([{ message := message, to_number := to_number, sender := tenant.virtual_number }], u)

/-- The requests-and-usage outcome of send_sms. -/
def send_sms (cid csec : String) (gw : GatewayOutcome) (dbUrl : Bool)
    (att1 att2 : Option PyErr) (month : String) (tenant : Tenant)
    (to_number message : String) (u : Usage) : List SendRequest × Usage :=
  match send_smsE cid csec gw dbUrl att1 att2 month tenant to_number message u with
  | Except.ok r => r
  | Except.error _ => ([], u)

/-- The stored outbound_count for one (month, tenant_id) key, 0 if absent. -/
def usage_get (u : Usage) (k : String × String) : Int :=
  match u with
  | [] => 0
  | (k', n) :: t => if k' = k then n else usage_get t k

/-- PLAN_LIMITS (App.py line 293), read through dict .get(plan, 0): any plan
other than basic or advanced, including the empty one, falls to 0. -/
def PLAN_LIMITS (plan : String) : Int :=
  if plan = "basic" then 200 else if plan = "advanced" then 400 else 0

/-- One line item successfully created in Stripe, as recorded in the
result's created list (App.py lines 692-700). -/
structure CreatedItem where
  tenant_id : String
  stripe_customer_id : String
  extra : Int
  amount_cents : Int
  invoice_item_id : String
deriving DecidableEq

/-- State threaded through the reconciliation loop of
admin_stripe_add_overages: the result report under construction, the list of
tenants for which stripe.InvoiceItem.create was called (whatever its
outcome), and the stripe_overage_runs marker table. -/
structure OvState where
  created : List CreatedItem
  stripe_calls : List String
  runs : List (String × String)
  no_customer : Nat
  already_run : Nat
  no_extra : Nat
deriving DecidableEq

/-- already_ran_overage (App.py lines 316-323): SELECT 1 FROM
stripe_overage_runs WHERE month=.. AND tenant_id=.. finds a row. -/
def already_ran_overage (runs : List (String × String)) (month tenant_id : String) : Bool :=
  decide ((month, tenant_id) ∈ runs)

/-- mark_ran_overage (App.py lines 326-336): INSERT ... ON CONFLICT (month,
tenant_id) DO NOTHING. -/
def mark_ran_overage (runs : List (String × String)) (month tenant_id : String) :
    List (String × String) :=
  if (month, tenant_id) ∈ runs then runs else runs ++ [(month, tenant_id)]

/-- (tenant.get("stripe_customer_id") or "").strip() where tenant is
TENANTS_BY_ID.get(tenant_id) or \x7b\x7d (App.py lines 654-655). -/
def tenant_customer (T : String → Option Tenant) (tenant_id : String) : String :=
  pyStrip (((T tenant_id).map Tenant.stripe_customer_id).getD "")

/-- (tenant.get("plan") or "").strip().lower() (App.py line 656). -/
def tenant_plan (T : String → Option Tenant) (tenant_id : String) : String :=
  pyLower (pyStrip (((T tenant_id).map Tenant.plan).getD ""))

/-- One iteration of the loop of admin_stripe_add_overages (App.py lines
653-704) on the row (tenant_id, outbound).  T is TENANTS_BY_ID; stripeCreate
gives the outcome of stripe.InvoiceItem.create for a tenant: some invoice
item id on success, none when it raises — in which case the code logs,
does not mark the run and does not extend created, so a retry remains
possible. -/
def overage_step (month : String) (price_cents : Int) (T : String → Option Tenant)
    (stripeCreate : String → Option String) (st : OvState) :
    String × Int → OvState
  | (tenant_id, outbound) =>
    if tenant_customer T tenant_id = "" then
      { st with no_customer := st.no_customer + 1 }
    else if already_ran_overage st.runs month tenant_id = true then
      { st with already_run := st.already_run + 1 }
    else
      let extra := max 0 (outbound - PLAN_LIMITS (tenant_plan T tenant_id))
      if extra ≤ 0 then
        { st with no_extra := st.no_extra + 1
                  runs := mark_ran_overage st.runs month tenant_id }
      else
        match stripeCreate tenant_id with
        | some item_id =>
            { st with
              stripe_calls := st.stripe_calls ++ [tenant_id]
              runs := mark_ran_overage st.runs month tenant_id
              created := st.created ++
                [{ tenant_id := tenant_id, stripe_customer_id := tenant_customer T tenant_id,
                   extra := extra, amount_cents := extra * price_cents,
                   invoice_item_id := item_id }] }
        | Option.none =>
            { st with stripe_calls := st.stripe_calls ++ [tenant_id] }

/-- The fresh report state a reconciliation request starts from (App.py lines
646-651): empty result, zero skip counters, and the marker table as found. -/
def ov_init (runs0 : List (String × String)) : OvState :=
  { created := [], stripe_calls := [], runs := runs0,
    no_customer := 0, already_run := 0, no_extra := 0 }

/-- admin_stripe_add_overages (App.py lines 616-705) reduced to its loop over
the fetch_month_usage rows: the report starts fresh; runs0 is whatever the
stripe_overage_runs table already holds when the request starts. -/
def admin_stripe_add_overages (month : String) (price_cents : Int)
    (T : String → Option Tenant) (stripeCreate : String → Option String)
    (rows : List (String × Int)) (runs0 : List (String × String)) : OvState :=
  List.foldl (overage_step month price_cents T stripeCreate) (ov_init runs0) rows

/-- Number of created invoice items for one tenant in a report. -/
def createdFor (st : OvState) (tenant_id : String) : Nat :=
  (st.created.filter (fun c => decide (c.tenant_id = tenant_id))).length

/-- Number of stripe.InvoiceItem.create calls made for one tenant. -/
def callsFor (st : OvState) (tenant_id : String) : Nat :=
  (st.stripe_calls.filter (fun s => decide (s = tenant_id))).length

/-- A parsed JSON value as Flask's request.get_json(force=True, silent=True)
delivers it: a Python object.  pynone models Python None, which is also what
silent=True yields on a parse failure. -/
inductive PyVal where
  | pynone : PyVal
  | pybool : Bool → PyVal
  | pyint : Int → PyVal
  | pystr : String → PyVal
  | pylist : List PyVal → PyVal
  | pydict : List (String × PyVal) → PyVal

/-- Python truthiness for the values above. -/
def truthy : PyVal → Bool
  | PyVal.pynone => false
  | PyVal.pybool b => b
  | PyVal.pyint n => decide (n ≠ 0)
  | PyVal.pystr s => decide (s ≠ "")
  | PyVal.pylist [] => false
  | PyVal.pylist (_ :: _) => true
  | PyVal.pydict [] => false
  | PyVal.pydict (_ :: _) => true

/-- Python v.get(k): dictionary lookup returning None for a missing key;
calling .get on any value that is not a dict raises AttributeError. -/
def pyGet (v : PyVal) (k : String) : Except PyErr PyVal :=
  match v with
  | PyVal.pydict fs =>
      Except.ok (((fs.find? (fun p => decide (p.1 = k))).map Prod.snd).getD PyVal.pynone)
  | _ => Except.error (PyErr.otherErr "AttributeError")

/-- Python x or y on two already-computed values. -/
def pyOr (a b : PyVal) : PyVal := if truthy a = true then a else b

/-- Python v.strip(): valid on str, AttributeError on anything else. -/
def pyStripE (v : PyVal) : Except PyErr String :=
  match v with
  | PyVal.pystr s => Except.ok (pyStrip s)
  | _ => Except.error (PyErr.otherErr "AttributeError")

/-- extract_event (App.py lines 450-457): unwrap a one-element list, keep a
dict, drop everything else. -/
def extract_event (payload : PyVal) : PyVal :=
  match payload with
  | PyVal.pynone => PyVal.pynone
  | PyVal.pylist [] => PyVal.pynone
  | PyVal.pylist (x :: _) => x
  | PyVal.pydict fs => PyVal.pydict fs
  | _ => PyVal.pynone

/-- extract_receiver (App.py lines 460-462): msg is event.get("message") or
the empty dict, the result (msg.get("receiver") or event.get("receiver") or
"").strip(), with Python's left-to-right short-circuit evaluation. -/
def extract_receiver (event : PyVal) : Except PyErr String := do
  let m ← pyGet event "message"
  let msg := pyOr m (PyVal.pydict [])
  let a ← pyGet msg "receiver"
  if truthy a = true then
    pyStripE a
  else do
    let b ← pyGet event "receiver"
    pyStripE (pyOr b (PyVal.pystr ""))

/-- extract_sender (App.py lines 465-467). -/
def extract_sender (event : PyVal) : Except PyErr String := do
  let m ← pyGet event "message"
  let msg := pyOr m (PyVal.pydict [])
  let a ← pyGet msg "sender"
  if truthy a = true then
    pyStripE a
  else do
    let b ← pyGet event "sender"
    if truthy b = true then
      pyStripE b
    else do
      let c ← pyGet event "from"
      pyStripE (pyOr c (PyVal.pystr ""))

/-- extract_text (App.py lines 470-472). -/
def extract_text (event : PyVal) : Except PyErr String := do
  let m ← pyGet event "message"
  let msg := pyOr m (PyVal.pydict [])
  let a ← pyGet msg "content"
  if truthy a = true then
    pyStripE a
  else do
    let b ← pyGet event "content"
    if truthy b = true then
      pyStripE b
    else do
      let c ← pyGet event "text"
      pyStripE (pyOr c (PyVal.pystr ""))

/-- extract_calling_number (App.py lines 475-476). -/
def extract_calling_number (event : PyVal) : Except PyErr String := do
  let a ← pyGet event "caller"
  let x := pyOr a (PyVal.pystr "")
  if truthy x = true then
    pyStripE x
  else do
    let b ← pyGet event "from"
    let y := pyOr b (PyVal.pystr "")
    if truthy y = true then
      pyStripE y
    else do
      let s ← extract_sender event
      pyStripE (PyVal.pystr s)

/-- ask_retell_via_sms (App.py lines 414-443) at the collaborator boundary:
agentReply is the stripped content of the last agent-authored message when
the Retell path produced one, none when any of its fallbacks hit.  The
function never raises — every external call is inside try/except — and
falls back to the tenant's opening line or the built-in Dutch default. -/
def ask_retell_via_sms (tenant : Tenant) (agentReply : Option String) : String :=
  let opening := if tenant.opening_line ≠ "" then tenant.opening_line
    else "Bedankt voor je bericht."
  match agentReply with
  | some content => if content ≠ "" then content else opening
  | Option.none => opening

/-- sms_inbound (App.py lines 488-510): the whole handler body.  The ok
result is the HTTP response plus the gateway requests made and the usage
table afterwards; an Except.error is an exception escaping the handler,
which Flask turns into a 500 response to the webhook caller. -/
def sms_inbound (reg : List (String × Tenant)) (agentReply : Option String)
    (cid csec : String) (gw : GatewayOutcome) (dbUrl : Bool) (att1 att2 : Option PyErr)
    (month : String) (payload : PyVal) (u : Usage) :
    Except PyErr ((String × Nat) × List SendRequest × Usage) := do
  let event := extract_event payload
  if truthy event = false then
    return (("OK", 200), [], u)
  let receiver ← extract_receiver event
  let sender ← extract_sender event
  let text ← extract_text event
  match get_tenant_by_receiver reg receiver with
  | Option.none => return (("OK", 200), [], u)
  | some tenant =>
    if sender ≠ "" ∧ text ≠ "" then
      let reply := ask_retell_via_sms tenant agentReply
      match send_smsE cid csec gw dbUrl att1 att2 month tenant sender reply u with
      | Except.ok r => return (("OK", 200), r.1, r.2)
      | Except.error e => throw e
    else
      return (("OK", 200), [], u)

/-- call_missed (App.py lines 513-534). -/
def call_missed (reg : List (String × Tenant)) (cid csec : String) (gw : GatewayOutcome)
    (dbUrl : Bool) (att1 att2 : Option PyErr) (month : String) (payload : PyVal)
    (u : Usage) : Except PyErr ((String × Nat) × List SendRequest × Usage) := do
  let event := extract_event payload
  if truthy event = false then
    return (("OK", 200), [], u)
  let receiver ← extract_receiver event
  let caller ← extract_calling_number event
  match get_tenant_by_receiver reg receiver with
  | Option.none => return (("OK", 200), [], u)
  | some tenant =>
    if caller ≠ "" then
      let opening := if tenant.opening_line ≠ "" then tenant.opening_line
        else "Bedankt om te bellen. Hoe kan ik helpen?"
      match send_smsE cid csec gw dbUrl att1 att2 month tenant caller opening u with
      | Except.ok r => return (("OK", 200), r.1, r.2)
      | Except.error e => throw e
    else
      return (("OK", 200), [], u)

/-! Theorems -/

theorem isDigit_eq_false_of_isWhitespace {c : Char} (h : c.isWhitespace = true) :
    c.isDigit = false := by
  have h' : ((c = ' ' ∨ c = '\t') ∨ c = '\r') ∨ c = '\n' := by
    simpa [Char.isWhitespace] using h
  rcases h' with ((h' | h') | h') | h' <;> subst h' <;> decide

theorem filter_isDigit_dropWhile (l : List Char) :
    (l.dropWhile Char.isWhitespace).filter Char.isDigit = l.filter Char.isDigit := by
  induction l with
  | nil => rfl
  | cons c t ih =>
    by_cases h : c.isWhitespace = true
    · rw [List.dropWhile_cons_of_pos h, ih, List.filter_cons,
        isDigit_eq_false_of_isWhitespace h]
      simp
    · rw [List.dropWhile_cons_of_neg (by simpa using h)]

theorem filter_isDigit_pyStrip (s : String) :
    (pyStrip s).data.filter Char.isDigit = s.data.filter Char.isDigit := by
  show ((((s.data.dropWhile Char.isWhitespace).reverse.dropWhile
      Char.isWhitespace).reverse).filter Char.isDigit) = _
  rw [List.filter_reverse, filter_isDigit_dropWhile, List.filter_reverse,
    List.reverse_reverse, filter_isDigit_dropWhile]

theorem filter_isDigit_of_all_digits {d : List Char} (hd : ∀ c ∈ d, c.isDigit = true) :
    d.filter Char.isDigit = d := by
  induction d with
  | nil => rfl
  | cons c t ih =>
    rw [List.filter_cons, hd c (by simp)]
    simp only [if_pos trivial]
    rw [ih fun c hc => hd c (by simp [hc])]

theorem normDigits_intl (d : List Char) :
    normDigits ('0' :: '0' :: '3' :: '2' :: d) = '3' :: '2' :: d := rfl

theorem normDigits_national (d : List Char) (h0 : d.head? ≠ some '0')
    (hl : d.length = 8 ∨ d.length = 9) :
    normDigits ('0' :: d) = '3' :: '2' :: d := by
  obtain ⟨c, t, rfl⟩ : ∃ c t, d = c :: t := by
    cases d with
    | nil => rcases hl with h | h <;> simp at h
    | cons c t => exact ⟨c, t, rfl⟩
  have hc : c ≠ '0' := by
    intro h
    exact h0 (by rw [h]; rfl)
  have hcond1 : ¬ (List.take 4 ('0' :: c :: t) = ['0', '0', '3', '2']) := by
    intro h
    have h1 : ('0' : Char) :: c :: List.take 2 t = ['0', '0', '3', '2'] := h
    have h2 : c :: List.take 2 t = ['0', '3', '2'] := List.tail_eq_of_cons_eq h1
    exact hc (List.head_eq_of_cons_eq h2)
  have hcond2 : List.take 1 ('0' :: c :: t) = ['0']
      ∧ (('0' :: c :: t).length = 9 ∨ ('0' :: c :: t).length = 10) := by
    refine ⟨rfl, ?_⟩
    rcases hl with h | h
    · left
      have ht : t.length = 7 := by simpa using h
      simp [ht]
    · right
      have ht : t.length = 8 := by simpa using h
      simp [ht]
  show (if List.take 1 (if List.take 4 ('0' :: c :: t) = ['0', '0', '3', '2']
        then '3' :: '2' :: List.drop 4 ('0' :: c :: t) else '0' :: c :: t) = ['0']
      ∧ ((if List.take 4 ('0' :: c :: t) = ['0', '0', '3', '2']
          then '3' :: '2' :: List.drop 4 ('0' :: c :: t) else '0' :: c :: t).length = 9
        ∨ (if List.take 4 ('0' :: c :: t) = ['0', '0', '3', '2']
          then '3' :: '2' :: List.drop 4 ('0' :: c :: t) else '0' :: c :: t).length = 10)
      then '3' :: '2' :: List.drop 1 (if List.take 4 ('0' :: c :: t) = ['0', '0', '3', '2']
          then '3' :: '2' :: List.drop 4 ('0' :: c :: t) else '0' :: c :: t)
      else (if List.take 4 ('0' :: c :: t) = ['0', '0', '3', '2']
          then '3' :: '2' :: List.drop 4 ('0' :: c :: t) else '0' :: c :: t))
      = '3' :: '2' :: c :: t
  rw [if_neg hcond1, if_pos hcond2]
  rfl

theorem normDigits_canonical (d : List Char) :
    normDigits ('3' :: '2' :: d) = '3' :: '2' :: d := rfl

theorem normalize_phone_mk (l : List Char) :
    normalize_phone (String.mk l) = String.mk (normDigits (l.filter Char.isDigit)) := by
  exact congrArg (fun x => String.mk (normDigits x)) (filter_isDigit_pyStrip (String.mk l))

theorem string_mk_cons_ne_empty (c : Char) (l : List Char) : String.mk (c :: l) ≠ "" := by
  intro h
  simpa using congrArg String.data h

/-- C7: for all valid virtual-number strings that differ only in formatting —
with or without the national leading zero, with or without the international
trunk prefix, and with punctuation — normalize_phone produces the same
canonical digit string, and get_tenant_by_receiver resolves each variant to
the same tenant.  d is the national significant number: all digits, 8 or 9
of them, not starting with the trunk digit 0. -/
theorem normalize_phone_variants_agree (d : List Char) (hd : ∀ c ∈ d, c.isDigit = true)
    (hl : d.length = 8 ∨ d.length = 9) (h0 : d.head? ≠ some '0')
    (reg : List (String × Tenant)) :
    normalize_phone (String.mk ('0' :: '0' :: '3' :: '2' :: d)) = String.mk ('3' :: '2' :: d)
    ∧ normalize_phone (String.mk ('0' :: d)) = String.mk ('3' :: '2' :: d)
    ∧ normalize_phone (String.mk ('3' :: '2' :: d)) = String.mk ('3' :: '2' :: d)
    ∧ get_tenant_by_receiver reg (String.mk ('0' :: d))
      = get_tenant_by_receiver reg (String.mk ('3' :: '2' :: d))
    ∧ get_tenant_by_receiver reg (String.mk ('0' :: '0' :: '3' :: '2' :: d))
      = get_tenant_by_receiver reg (String.mk ('3' :: '2' :: d))
    ∧ normalize_phone "+32 460 00 00 01" = normalize_phone "32460000001" := by
  have hfilter : d.filter Char.isDigit = d := filter_isDigit_of_all_digits hd
  have e1 : normalize_phone (String.mk ('0' :: '0' :: '3' :: '2' :: d))
      = String.mk ('3' :: '2' :: d) := by
    rw [normalize_phone_mk]
    have : ('0' :: '0' :: '3' :: '2' :: d).filter Char.isDigit
        = '0' :: '0' :: '3' :: '2' :: d := by
      simp [List.filter_cons, hfilter]
    rw [this, normDigits_intl]
  have e2 : normalize_phone (String.mk ('0' :: d)) = String.mk ('3' :: '2' :: d) := by
    rw [normalize_phone_mk]
    have : ('0' :: d).filter Char.isDigit = '0' :: d := by
      simp [List.filter_cons, hfilter]
    rw [this, normDigits_national d h0 hl]
  have e3 : normalize_phone (String.mk ('3' :: '2' :: d)) = String.mk ('3' :: '2' :: d) := by
    rw [normalize_phone_mk]
    have : ('3' :: '2' :: d).filter Char.isDigit = '3' :: '2' :: d := by
      simp [List.filter_cons, hfilter]
    rw [this, normDigits_canonical]
  refine ⟨e1, e2, e3, ?_, ?_, by decide⟩
  · unfold get_tenant_by_receiver
    rw [if_neg (string_mk_cons_ne_empty _ _), if_neg (string_mk_cons_ne_empty _ _), e2, e3]
  · unfold get_tenant_by_receiver
    rw [if_neg (string_mk_cons_ne_empty _ _), if_neg (string_mk_cons_ne_empty _ _), e1, e3]

/-- Witness for C7 at the Belgian national significant number 460000001. -/
theorem normalize_phone_variants_agree_witness :
    normalize_phone (String.mk ('0' :: "460000001".data)) = String.mk ('3' :: '2' :: "460000001".data)
    ∧ normalize_phone "+32 460 00 00 01" = normalize_phone "32460000001" := by
  have h := normalize_phone_variants_agree "460000001".data (by decide) (by decide) (by decide) []
  exact ⟨h.2.1, h.2.2.2.2.2⟩

theorem pyDictGet_insert_self {α : Type} (d : List (String × α)) (k : String) (v : α) :
    pyDictGet (pyDictInsert d k v) k = some v := by
  induction d with
  | nil => simp [pyDictInsert, pyDictGet]
  | cons p t ih =>
    obtain ⟨k', v'⟩ := p
    by_cases h : k' = k
    · subst h
      simp [pyDictInsert, pyDictGet]
    · simp [pyDictInsert, pyDictGet, h, ih]

/-- C5 counterexample: two CSV rows whose virtual numbers normalize to the
same canonical value.  After the reload, the registry holds the second row's
tenant, not the first row's: the conflicting later row is not rejected. -/
theorem load_duplicate_virtual_first_loses :
    pyDictGet (load_tenants_from_csv (some
        [{ tenant_id := some "tA", stripe_customer_id := Option.none,
           company_name := some "First BV", company_number := Option.none,
           virtual_number := some "32460000001", retell_agent_id := Option.none,
           plan := Option.none, opening_line := Option.none },
         { tenant_id := some "tB", stripe_customer_id := Option.none,
           company_name := some "Second BV", company_number := Option.none,
           virtual_number := some "0460000001", retell_agent_id := Option.none,
           plan := Option.none, opening_line := Option.none }])
        { byVirtual := [], byId := [] }).byVirtual "32460000001"
      = some (row_tenant
        { tenant_id := some "tB", stripe_customer_id := Option.none,
          company_name := some "Second BV", company_number := Option.none,
          virtual_number := some "0460000001", retell_agent_id := Option.none,
          plan := Option.none, opening_line := Option.none })
    ∧ ¬ (pyDictGet (load_tenants_from_csv (some
        [{ tenant_id := some "tA", stripe_customer_id := Option.none,
           company_name := some "First BV", company_number := Option.none,
           virtual_number := some "32460000001", retell_agent_id := Option.none,
           plan := Option.none, opening_line := Option.none },
         { tenant_id := some "tB", stripe_customer_id := Option.none,
           company_name := some "Second BV", company_number := Option.none,
           virtual_number := some "0460000001", retell_agent_id := Option.none,
           plan := Option.none, opening_line := Option.none }])
        { byVirtual := [], byId := [] }).byVirtual "32460000001"
      = some (row_tenant
        { tenant_id := some "tA", stripe_customer_id := Option.none,
          company_name := some "First BV", company_number := Option.none,
          virtual_number := some "32460000001", retell_agent_id := Option.none,
          plan := Option.none, opening_line := Option.none })) := by
  constructor
  · decide
  · decide

/-- C5 amended: when a reload sees several rows with the same normalized
virtual number, the last such row's tenant is the one kept in the registry
(plain dict assignment: last row wins, nothing is rejected). -/
theorem load_tenants_last_row_wins (rows : List RawRow) (r : RawRow) (prev : Registry)
    (h : ¬ (pyStrip (r.virtual_number.getD "") = "")) :
    pyDictGet (load_tenants_from_csv (some (rows ++ [r])) prev).byVirtual
        (normalize_phone (pyStrip (r.virtual_number.getD ""))) = some (row_tenant r) := by
  show pyDictGet (List.foldl load_row { byVirtual := [], byId := [] }
      (rows ++ [r])).byVirtual (normalize_phone (pyStrip (r.virtual_number.getD "")))
    = some (row_tenant r)
  rw [List.foldl_append]
  simp only [List.foldl_cons, List.foldl_nil, load_row]
  rw [if_neg h]
  exact pyDictGet_insert_self _ _ _

/-- Witness for the C5 amended theorem at a concrete duplicate pair. -/
theorem load_tenants_last_row_wins_witness :
    pyDictGet (load_tenants_from_csv (some
        ([{ tenant_id := some "tA", stripe_customer_id := Option.none,
            company_name := some "First BV", company_number := Option.none,
            virtual_number := some "32460000001", retell_agent_id := Option.none,
            plan := Option.none, opening_line := Option.none }] ++
         [{ tenant_id := some "tB", stripe_customer_id := Option.none,
            company_name := some "Second BV", company_number := Option.none,
            virtual_number := some "0460000001", retell_agent_id := Option.none,
            plan := Option.none, opening_line := Option.none }]))
        { byVirtual := [], byId := [] }).byVirtual
      (normalize_phone (pyStrip ((some "0460000001").getD "")))
      = some (row_tenant
        { tenant_id := some "tB", stripe_customer_id := Option.none,
          company_name := some "Second BV", company_number := Option.none,
          virtual_number := some "0460000001", retell_agent_id := Option.none,
          plan := Option.none, opening_line := Option.none }) :=
  load_tenants_last_row_wins _ _ _ (by decide)

/-- C6 counterexample: a reload from a missing source does not leave the
registry untouched.  With one tenant loaded, the virtual-number lookup
returns the tenant before the reload and nothing after it. -/
theorem load_tenants_missing_file_not_untouched :
    ¬ (pyDictGet (load_tenants_from_csv Option.none
        { byVirtual := [("32460000001",
            { tenant_id := "t1", stripe_customer_id := "cus_t1",
              company_name := "First BV", company_number := "BE0123",
              virtual_number := "32460000001", retell_agent_id := "",
              plan := "basic", opening_line := "Hallo" })],
          byId := [("t1",
            { tenant_id := "t1", stripe_customer_id := "cus_t1",
              company_name := "First BV", company_number := "BE0123",
              virtual_number := "32460000001", retell_agent_id := "",
              plan := "basic", opening_line := "Hallo" })] }).byVirtual "32460000001"
      = pyDictGet (Registry.mk
          [("32460000001",
            { tenant_id := "t1", stripe_customer_id := "cus_t1",
              company_name := "First BV", company_number := "BE0123",
              virtual_number := "32460000001", retell_agent_id := "",
              plan := "basic", opening_line := "Hallo" })]
          [("t1",
            { tenant_id := "t1", stripe_customer_id := "cus_t1",
              company_name := "First BV", company_number := "BE0123",
              virtual_number := "32460000001", retell_agent_id := "",
              plan := "basic", opening_line := "Hallo" })]).byVirtual
          "32460000001") := by
  decide

/-- C6 amended: a reload from a missing source empties the registry (the two
global dicts are reset before the existence check) and reports only a soft
failure: the function returns normally and every subsequent lookup by
virtual number or tenant id finds nothing. -/
theorem load_tenants_missing_file_clears (prev : Registry) (k : String) :
    pyDictGet (load_tenants_from_csv Option.none prev).byVirtual k = Option.none
    ∧ pyDictGet (load_tenants_from_csv Option.none prev).byId k = Option.none :=
  ⟨rfl, rfl⟩

theorem usage_get_upsert (u : Usage) (k : String × String) (a : Int) :
    usage_get (usage_upsert u k a) k = usage_get u k + a := by
  induction u with
  | nil => simp [usage_upsert, usage_get]
  | cons p t ih =>
    obtain ⟨k', n⟩ := p
    by_cases h : k' = k
    · subst h
      simp [usage_upsert, usage_get]
    · simp [usage_upsert, usage_get, h, ih]

theorem bumpE_ok (dbUrl : Bool) (att1 att2 : Option PyErr) (month tid : String)
    (amount : Int) (u : Usage) :
    ∃ u', bump_monthly_outboundE dbUrl att1 att2 month tid amount u = Except.ok u' := by
  cases dbUrl with
  | false => exact ⟨u, rfl⟩
  | true =>
    cases att1 with
    | none => exact ⟨_, rfl⟩
    | some e =>
      cases e with
      | undefinedTable =>
        cases att2 with
        | none => exact ⟨_, rfl⟩
        | some e2 => exact ⟨u, rfl⟩
      | otherErr m => exact ⟨u, rfl⟩

theorem send_smsE_response_eq (cid csec : String) (status : Int) (body : String)
    (dbUrl : Bool) (att1 att2 : Option PyErr) (month : String) (tenant : Tenant)
    (to_number message : String) (u : Usage) :
    send_smsE cid csec (GatewayOutcome.response status body) dbUrl att1 att2 month tenant
        to_number message u
      = if to_number = "" ∨ message = "" then Except.ok ([], u)
        else if cid = "" ∨ csec = "" then Except.ok ([], u)
        else if 200 ≤ status ∧ status < 300 then
          Except.ok ([{ message := message, to_number := to_number, sender := tenant.virtual_number }],
            bump_monthly_outbound dbUrl att1 att2 month tenant.tenant_id 1 u)
        else
          Except.ok ([{ message := message, to_number := to_number, sender := tenant.virtual_number }], u) := by
  by_cases h1 : to_number = "" ∨ message = ""
  · unfold send_smsE
    rw [if_pos h1]
  · by_cases h2 : cid = "" ∨ csec = ""
    · unfold send_smsE
      rw [if_neg h1, if_pos h2]
    · unfold send_smsE
      rw [if_neg h1, if_neg h2]

theorem send_smsE_transport_eq (cid csec : String) (gwmsg : String)
    (dbUrl : Bool) (att1 att2 : Option PyErr) (month : String) (tenant : Tenant)
    (to_number message : String) (u : Usage) :
    send_smsE cid csec (GatewayOutcome.transportError gwmsg) dbUrl att1 att2 month tenant
        to_number message u
      = if to_number = "" ∨ message = "" then Except.ok ([], u)
        else if cid = "" ∨ csec = "" then Except.ok ([], u)
        else
          Except.ok ([{ message := message, to_number := to_number, sender := tenant.virtual_number }], u) := by
  by_cases h1 : to_number = "" ∨ message = ""
  · unfold send_smsE
    rw [if_pos h1]
  · by_cases h2 : cid = "" ∨ csec = ""
    · unfold send_smsE
      rw [if_neg h1, if_pos h2]
    · unfold send_smsE
      rw [if_neg h1, if_neg h2]

theorem send_sms_of_E {cid csec : String} {gw : GatewayOutcome} {dbUrl : Bool}
    {att1 att2 : Option PyErr} {month : String} {tenant : Tenant}
    {to_number message : String} {u : Usage} {r : List SendRequest × Usage}
    (h : send_smsE cid csec gw dbUrl att1 att2 month tenant to_number message u
      = Except.ok r) :
    send_sms cid csec gw dbUrl att1 att2 month tenant to_number message u = r := by
  unfold send_sms
  rw [h]

theorem send_smsE_ok (cid csec : String) (gw : GatewayOutcome) (dbUrl : Bool)
    (att1 att2 : Option PyErr) (month : String) (tenant : Tenant)
    (to_number message : String) (u : Usage) :
    ∃ r, send_smsE cid csec gw dbUrl att1 att2 month tenant to_number message u
      = Except.ok r := by
  cases gw with
  | response s b =>
    rw [send_smsE_response_eq]
    by_cases h1 : to_number = "" ∨ message = ""
    · rw [if_pos h1]
      exact ⟨_, rfl⟩
    · rw [if_neg h1]
      by_cases h2 : cid = "" ∨ csec = ""
      · rw [if_pos h2]
        exact ⟨_, rfl⟩
      · rw [if_neg h2]
        by_cases h3 : 200 ≤ s ∧ s < 300
        · rw [if_pos h3]
          exact ⟨_, rfl⟩
        · rw [if_neg h3]
          exact ⟨_, rfl⟩
  | transportError m =>
    rw [send_smsE_transport_eq]
    by_cases h1 : to_number = "" ∨ message = ""
    · rw [if_pos h1]
      exact ⟨_, rfl⟩
    · rw [if_neg h1]
      by_cases h2 : cid = "" ∨ csec = ""
      · rw [if_pos h2]
        exact ⟨_, rfl⟩
      · rw [if_neg h2]
        exact ⟨_, rfl⟩

theorem send_smsE_eq_ok (cid csec : String) (gw : GatewayOutcome) (dbUrl : Bool)
    (att1 att2 : Option PyErr) (month : String) (tenant : Tenant)
    (to_number message : String) (u : Usage) :
    send_smsE cid csec gw dbUrl att1 att2 month tenant to_number message u
      = Except.ok (send_sms cid csec gw dbUrl att1 att2 month tenant to_number message u) := by
  obtain ⟨r, hr⟩ := send_smsE_ok cid csec gw dbUrl att1 att2 month tenant to_number message u
  rw [hr, send_sms_of_E hr]

/-- C4 counterexample: the gateway confirms the send with status 204 (a 2xx
response), but the durable store errors inside bump_monthly_outbound, so the
monthly usage counter is NOT incremented — refuting "incremented by exactly 1
if and only if the gateway confirms the send with a 2xx response". -/
theorem send_sms_2xx_store_failure_no_increment :
    (send_sms "cid" "csec" (GatewayOutcome.response 204 "") true
        (some (PyErr.otherErr "connection refused")) Option.none "2026-01"
        { tenant_id := "t1", stripe_customer_id := "cus_t1",
          company_name := "First BV", company_number := "BE0123",
          virtual_number := "32460000001", retell_agent_id := "",
          plan := "basic", opening_line := "Hallo" }
        "32499000000" "hoi" [(("2026-01", "t1"), 3)]).2
      = [(("2026-01", "t1"), 3)]
    ∧ ((200 : Int) ≤ 204 ∧ (204 : Int) < 300) := by
  constructor
  · rfl
  · decide

/-- C4 amended: the usage counter is incremented by exactly 1 when the
gateway confirms with a 2xx status AND the durable store operation succeeds;
on any non-2xx response or transport error the counter is unchanged; and in
all cases no exception propagates out of send_sms. -/
theorem send_sms_meter_on_confirmed_send (cid csec : String) (status : Int)
    (body gwmsg : String) (dbUrl : Bool) (att1 att2 : Option PyErr) (month : String)
    (tenant : Tenant) (to_number message : String) (u : Usage) :
    (to_number ≠ "" → message ≠ "" → cid ≠ "" → csec ≠ "" →
      200 ≤ status → status < 300 →
      (send_sms cid csec (GatewayOutcome.response status body) true Option.none att2
          month tenant to_number message u).2
        = usage_upsert u (month, tenant.tenant_id) 1)
    ∧ (¬ (200 ≤ status ∧ status < 300) →
        (send_sms cid csec (GatewayOutcome.response status body) dbUrl att1 att2
            month tenant to_number message u).2 = u)
    ∧ (send_sms cid csec (GatewayOutcome.transportError gwmsg) dbUrl att1 att2
          month tenant to_number message u).2 = u
    ∧ usage_get (usage_upsert u (month, tenant.tenant_id) 1) (month, tenant.tenant_id)
        = usage_get u (month, tenant.tenant_id) + 1
    ∧ send_smsE cid csec (GatewayOutcome.response status body) dbUrl att1 att2 month
        tenant to_number message u
      = Except.ok (send_sms cid csec (GatewayOutcome.response status body) dbUrl att1 att2
          month tenant to_number message u)
    ∧ send_smsE cid csec (GatewayOutcome.transportError gwmsg) dbUrl att1 att2 month
        tenant to_number message u
      = Except.ok (send_sms cid csec (GatewayOutcome.transportError gwmsg) dbUrl att1 att2
          month tenant to_number message u) := by
  refine ⟨?_, ?_, ?_, usage_get_upsert u (month, tenant.tenant_id) 1,
    send_smsE_eq_ok cid csec _ dbUrl att1 att2 month tenant to_number message u,
    send_smsE_eq_ok cid csec _ dbUrl att1 att2 month tenant to_number message u⟩
  · intro h1 h2 h3 h4 h5 h6
    have key : send_smsE cid csec (GatewayOutcome.response status body) true Option.none
        att2 month tenant to_number message u
        = Except.ok ([{ message := message, to_number := to_number, sender := tenant.virtual_number }],
          usage_upsert u (month, tenant.tenant_id) 1) := by
      rw [send_smsE_response_eq, if_neg (not_or.mpr ⟨h1, h2⟩),
        if_neg (not_or.mpr ⟨h3, h4⟩), if_pos ⟨h5, h6⟩]
      rfl
    rw [send_sms_of_E key]
  · intro h3
    by_cases h1 : to_number = "" ∨ message = ""
    · have key : send_smsE cid csec (GatewayOutcome.response status body) dbUrl att1 att2
          month tenant to_number message u = Except.ok ([], u) := by
        rw [send_smsE_response_eq, if_pos h1]
      rw [send_sms_of_E key]
    · by_cases h2 : cid = "" ∨ csec = ""
      · have key : send_smsE cid csec (GatewayOutcome.response status body) dbUrl att1 att2
            month tenant to_number message u = Except.ok ([], u) := by
          rw [send_smsE_response_eq, if_neg h1, if_pos h2]
        rw [send_sms_of_E key]
      · have key : send_smsE cid csec (GatewayOutcome.response status body) dbUrl att1 att2
            month tenant to_number message u
            = Except.ok ([{ message := message, to_number := to_number, sender := tenant.virtual_number }], u) := by
          rw [send_smsE_response_eq, if_neg h1, if_neg h2, if_neg h3]
        rw [send_sms_of_E key]
  · by_cases h1 : to_number = "" ∨ message = ""
    · have key : send_smsE cid csec (GatewayOutcome.transportError gwmsg) dbUrl att1 att2
          month tenant to_number message u = Except.ok ([], u) := by
        rw [send_smsE_transport_eq, if_pos h1]
      rw [send_sms_of_E key]
    · by_cases h2 : cid = "" ∨ csec = ""
      · have key : send_smsE cid csec (GatewayOutcome.transportError gwmsg) dbUrl att1 att2
            month tenant to_number message u = Except.ok ([], u) := by
          rw [send_smsE_transport_eq, if_neg h1, if_pos h2]
        rw [send_sms_of_E key]
      · have key : send_smsE cid csec (GatewayOutcome.transportError gwmsg) dbUrl att1 att2
            month tenant to_number message u
            = Except.ok ([{ message := message, to_number := to_number, sender := tenant.virtual_number }], u) := by
          rw [send_smsE_transport_eq, if_neg h1, if_neg h2]
        rw [send_sms_of_E key]

/-- Witness for the C4 amended theorem: a confirmed 202 send with working
store increments t1's counter; a 500 response leaves it unchanged. -/
theorem send_sms_meter_on_confirmed_send_witness :
    (send_sms "cid" "csec" (GatewayOutcome.response 202 "") true Option.none Option.none
        "2026-01"
        { tenant_id := "t1", stripe_customer_id := "cus_t1",
          company_name := "First BV", company_number := "BE0123",
          virtual_number := "32460000001", retell_agent_id := "",
          plan := "basic", opening_line := "Hallo" }
        "32499000000" "hoi" [(("2026-01", "t1"), 3)]).2
      = usage_upsert [(("2026-01", "t1"), 3)] ("2026-01", "t1") 1
    ∧ (send_sms "cid" "csec" (GatewayOutcome.response 500 "") true Option.none Option.none
        "2026-01"
        { tenant_id := "t1", stripe_customer_id := "cus_t1",
          company_name := "First BV", company_number := "BE0123",
          virtual_number := "32460000001", retell_agent_id := "",
          plan := "basic", opening_line := "Hallo" }
        "32499000000" "hoi" [(("2026-01", "t1"), 3)]).2
      = [(("2026-01", "t1"), 3)] := by
  constructor
  · exact (send_sms_meter_on_confirmed_send "cid" "csec" 202 "" "x" true Option.none
      Option.none "2026-01"
      { tenant_id := "t1", stripe_customer_id := "cus_t1",
        company_name := "First BV", company_number := "BE0123",
        virtual_number := "32460000001", retell_agent_id := "",
        plan := "basic", opening_line := "Hallo" }
      "32499000000" "hoi" [(("2026-01", "t1"), 3)]).1
      (by decide) (by decide) (by decide) (by decide) (by decide) (by decide)
  · exact (send_sms_meter_on_confirmed_send "cid" "csec" 500 "" "x" true Option.none
      Option.none "2026-01"
      { tenant_id := "t1", stripe_customer_id := "cus_t1",
        company_name := "First BV", company_number := "BE0123",
        virtual_number := "32460000001", retell_agent_id := "",
        plan := "basic", opening_line := "Hallo" }
      "32499000000" "hoi" [(("2026-01", "t1"), 3)]).2.1
      (by decide)

/-- C9 counterexample: with the durable store erroring, bump_monthly_outbound
returns normally with the usage table unchanged — Except.ok, not an error —
so the failure is caught and logged inside the usage meter itself and is
never signalled to the calling component. -/
theorem bump_store_failure_not_signalled :
    bump_monthly_outboundE true (some (PyErr.otherErr "db down")) Option.none
        "2026-01" "t1" 1 [(("2026-01", "t1"), 3)]
      = Except.ok [(("2026-01", "t1"), 3)] := rfl

/-- C9 amended: bump_monthly_outbound never raises to its caller (it catches
every store failure internally and logs it itself); on a store failure the
usage table is unchanged; and the already-made gateway send is unaffected —
the requests send_sms sent do not depend on the store outcome at all. -/
theorem bump_store_failure_swallowed (dbUrl dbUrl' : Bool)
    (att1 att2 att1' att2' : Option PyErr) (month tid : String) (amount : Int)
    (u : Usage) (emsg : String) (e2 : PyErr) (cid csec : String) (gw : GatewayOutcome)
    (tenant : Tenant) (to_number message : String) :
    bump_monthly_outboundE dbUrl att1 att2 month tid amount u
      = Except.ok (bump_monthly_outbound dbUrl att1 att2 month tid amount u)
    ∧ (att1 = some (PyErr.otherErr emsg) →
        bump_monthly_outbound dbUrl att1 att2 month tid amount u = u)
    ∧ (att1 = some PyErr.undefinedTable → att2 = some e2 →
        bump_monthly_outbound dbUrl att1 att2 month tid amount u = u)
    ∧ (send_sms cid csec gw dbUrl att1 att2 month tenant to_number message u).1
      = (send_sms cid csec gw dbUrl' att1' att2' month tenant to_number message u).1 := by
  refine ⟨?_, ?_, ?_, ?_⟩
  · obtain ⟨u', hu⟩ := bumpE_ok dbUrl att1 att2 month tid amount u
    unfold bump_monthly_outbound
    rw [hu]
  · intro h
    subst h
    cases dbUrl <;> rfl
  · intro h1 h2
    subst h1
    subst h2
    cases dbUrl <;> rfl
  · cases gw with
    | response s b =>
      by_cases h1 : to_number = "" ∨ message = ""
      · rw [send_sms_of_E (by rw [send_smsE_response_eq, if_pos h1]),
          send_sms_of_E (by rw [send_smsE_response_eq, if_pos h1])]
      · by_cases h2 : cid = "" ∨ csec = ""
        · rw [send_sms_of_E (by rw [send_smsE_response_eq, if_neg h1, if_pos h2]),
            send_sms_of_E (by rw [send_smsE_response_eq, if_neg h1, if_pos h2])]
        · by_cases h3 : 200 ≤ s ∧ s < 300
          · rw [send_sms_of_E
                (by rw [send_smsE_response_eq, if_neg h1, if_neg h2, if_pos h3]),
              send_sms_of_E
                (by rw [send_smsE_response_eq, if_neg h1, if_neg h2, if_pos h3])]
          · rw [send_sms_of_E
                (by rw [send_smsE_response_eq, if_neg h1, if_neg h2, if_neg h3]),
              send_sms_of_E
                (by rw [send_smsE_response_eq, if_neg h1, if_neg h2, if_neg h3])]
    | transportError m =>
      by_cases h1 : to_number = "" ∨ message = ""
      · rw [send_sms_of_E (by rw [send_smsE_transport_eq, if_pos h1]),
          send_sms_of_E (by rw [send_smsE_transport_eq, if_pos h1])]
      · by_cases h2 : cid = "" ∨ csec = ""
        · rw [send_sms_of_E (by rw [send_smsE_transport_eq, if_neg h1, if_pos h2]),
            send_sms_of_E (by rw [send_smsE_transport_eq, if_neg h1, if_pos h2])]
        · rw [send_sms_of_E (by rw [send_smsE_transport_eq, if_neg h1, if_neg h2]),
            send_sms_of_E (by rw [send_smsE_transport_eq, if_neg h1, if_neg h2])]

/-- Witness for the C9 amended theorem at a concrete failing store. -/
theorem bump_store_failure_swallowed_witness :
    bump_monthly_outbound true (some (PyErr.otherErr "db down")) Option.none
        "2026-01" "t1" 1 [(("2026-01", "t1"), 3)]
      = [(("2026-01", "t1"), 3)] :=
  (bump_store_failure_swallowed true true (some (PyErr.otherErr "db down")) Option.none
    Option.none Option.none "2026-01" "t1" 1 [(("2026-01", "t1"), 3)] "db down"
    PyErr.undefinedTable "cid" "csec" (GatewayOutcome.response 200 "")
    { tenant_id := "t1", stripe_customer_id := "cus_t1",
      company_name := "First BV", company_number := "BE0123",
      virtual_number := "32460000001", retell_agent_id := "",
      plan := "basic", opening_line := "Hallo" }
    "32499000000" "hoi").2.1 rfl

theorem mem_mark_ran_overage (runs : List (String × String)) (month tenant_id : String)
    (p : String × String) :
    p ∈ mark_ran_overage runs month tenant_id ↔ p ∈ runs ∨ p = (month, tenant_id) := by
  unfold mark_ran_overage
  by_cases h : (month, tenant_id) ∈ runs
  · rw [if_pos h]
    constructor
    · exact fun hp => Or.inl hp
    · rintro (hp | hp)
      · exact hp
      · rw [hp]
        exact h
  · rw [if_neg h]
    simp [List.mem_append]

theorem already_ran_overage_false (runs : List (String × String)) (month tid : String)
    (h : (month, tid) ∉ runs) : ¬ (already_ran_overage runs month tid = true) := by
  simp [already_ran_overage, h]

theorem overage_step_no_customer (month : String) (price : Int)
    (T : String → Option Tenant) (create : String → Option String) (st : OvState)
    (tid : String) (n : Int) (h : tenant_customer T tid = "") :
    overage_step month price T create st (tid, n)
      = { st with no_customer := st.no_customer + 1 } := by
  simp only [overage_step]
  rw [if_pos h]

theorem overage_step_already_ran (month : String) (price : Int)
    (T : String → Option Tenant) (create : String → Option String) (st : OvState)
    (tid : String) (n : Int) (h1 : ¬ (tenant_customer T tid = ""))
    (h2 : (month, tid) ∈ st.runs) :
    overage_step month price T create st (tid, n)
      = { st with already_run := st.already_run + 1 } := by
  simp only [overage_step]
  have hmem : already_ran_overage st.runs month tid = true := decide_eq_true h2
  rw [if_neg h1, if_pos hmem]

theorem overage_step_no_extra (month : String) (price : Int)
    (T : String → Option Tenant) (create : String → Option String) (st : OvState)
    (tid : String) (n : Int) (h1 : ¬ (tenant_customer T tid = ""))
    (h2 : (month, tid) ∉ st.runs)
    (h3 : max 0 (n - PLAN_LIMITS (tenant_plan T tid)) ≤ 0) :
    overage_step month price T create st (tid, n)
      = { st with no_extra := st.no_extra + 1
                  runs := mark_ran_overage st.runs month tid } := by
  simp only [overage_step]
  rw [if_neg h1, if_neg (already_ran_overage_false st.runs month tid h2), if_pos h3]

theorem overage_step_creates (month : String) (price : Int)
    (T : String → Option Tenant) (create : String → Option String) (st : OvState)
    (tid : String) (n : Int) (iid : String) (h1 : ¬ (tenant_customer T tid = ""))
    (h2 : (month, tid) ∉ st.runs)
    (h3 : 0 < max 0 (n - PLAN_LIMITS (tenant_plan T tid)))
    (h4 : create tid = some iid) :
    overage_step month price T create st (tid, n)
      = { st with
          stripe_calls := st.stripe_calls ++ [tid]
          runs := mark_ran_overage st.runs month tid
          created := st.created ++
            [{ tenant_id := tid, stripe_customer_id := tenant_customer T tid,
               extra := max 0 (n - PLAN_LIMITS (tenant_plan T tid)),
               amount_cents := max 0 (n - PLAN_LIMITS (tenant_plan T tid)) * price,
               invoice_item_id := iid }] } := by
  simp only [overage_step]
  rw [if_neg h1, if_neg (already_ran_overage_false st.runs month tid h2),
    if_neg (not_le.mpr h3), h4]

theorem overage_step_create_fails (month : String) (price : Int)
    (T : String → Option Tenant) (create : String → Option String) (st : OvState)
    (tid : String) (n : Int) (h1 : ¬ (tenant_customer T tid = ""))
    (h2 : (month, tid) ∉ st.runs)
    (h3 : 0 < max 0 (n - PLAN_LIMITS (tenant_plan T tid)))
    (h4 : create tid = Option.none) :
    overage_step month price T create st (tid, n)
      = { st with stripe_calls := st.stripe_calls ++ [tid] } := by
  simp only [overage_step]
  rw [if_neg h1, if_neg (already_ran_overage_false st.runs month tid h2),
    if_neg (not_le.mpr h3), h4]

theorem overage_step_shape (month : String) (price : Int) (T : String → Option Tenant)
    (create : String → Option String) (st : OvState) (tid : String) (n : Int) :
    overage_step month price T create st (tid, n) = { st with no_customer := st.no_customer + 1 }
    ∨ ((month, tid) ∈ st.runs
        ∧ overage_step month price T create st (tid, n)
          = { st with already_run := st.already_run + 1 })
    ∨ ((month, tid) ∉ st.runs
        ∧ overage_step month price T create st (tid, n)
          = { st with no_extra := st.no_extra + 1
                      runs := mark_ran_overage st.runs month tid })
    ∨ ((month, tid) ∉ st.runs
        ∧ ∃ item : CreatedItem, item.tenant_id = tid
          ∧ overage_step month price T create st (tid, n)
            = { st with stripe_calls := st.stripe_calls ++ [tid]
                        runs := mark_ran_overage st.runs month tid
                        created := st.created ++ [item] })
    ∨ ((month, tid) ∉ st.runs
        ∧ overage_step month price T create st (tid, n)
          = { st with stripe_calls := st.stripe_calls ++ [tid] }) := by
  by_cases h1 : tenant_customer T tid = ""
  · exact Or.inl (overage_step_no_customer month price T create st tid n h1)
  · by_cases h2 : (month, tid) ∈ st.runs
    · exact Or.inr (Or.inl ⟨h2, overage_step_already_ran month price T create st tid n h1 h2⟩)
    · by_cases h3 : max 0 (n - PLAN_LIMITS (tenant_plan T tid)) ≤ 0
      · exact Or.inr (Or.inr (Or.inl
          ⟨h2, overage_step_no_extra month price T create st tid n h1 h2 h3⟩))
      · cases hc : create tid with
        | some iid =>
          exact Or.inr (Or.inr (Or.inr (Or.inl ⟨h2,
            ⟨{ tenant_id := tid, stripe_customer_id := tenant_customer T tid,
               extra := max 0 (n - PLAN_LIMITS (tenant_plan T tid)),
               amount_cents := max 0 (n - PLAN_LIMITS (tenant_plan T tid)) * price,
               invoice_item_id := iid }, rfl,
              overage_step_creates month price T create st tid n iid h1 h2 (not_le.mp h3) hc⟩⟩)))
        | none =>
          exact Or.inr (Or.inr (Or.inr (Or.inr ⟨h2,
            overage_step_create_fails month price T create st tid n h1 h2 (not_le.mp h3) hc⟩)))

theorem overage_step_frame_ne (month : String) (price : Int) (T : String → Option Tenant)
    (create : String → Option String) (st : OvState) (tid' : String) (n : Int)
    (tid : String) (hne : tid' ≠ tid) :
    createdFor (overage_step month price T create st (tid', n)) tid = createdFor st tid
    ∧ callsFor (overage_step month price T create st (tid', n)) tid = callsFor st tid
    ∧ ((month, tid) ∈ (overage_step month price T create st (tid', n)).runs
        ↔ (month, tid) ∈ st.runs) := by
  have hd : decide (tid' = tid) = false := decide_eq_false hne
  have hmark : ∀ runs0 : List (String × String),
      ((month, tid) ∈ mark_ran_overage runs0 month tid' ↔ (month, tid) ∈ runs0) := by
    intro runs0
    constructor
    · intro hmem
      rcases (mem_mark_ran_overage runs0 month tid' (month, tid)).mp hmem with h' | h'
      · exact h'
      · exact absurd (congrArg Prod.snd h') hne.symm
    · intro hmem
      exact (mem_mark_ran_overage runs0 month tid' (month, tid)).mpr (Or.inl hmem)
  rcases overage_step_shape month price T create st tid' n with
    h | ⟨_, h⟩ | ⟨_, h⟩ | ⟨_, item, hitem, h⟩ | ⟨_, h⟩ <;> rw [h]
  · exact ⟨rfl, rfl, Iff.rfl⟩
  · exact ⟨rfl, rfl, Iff.rfl⟩
  · exact ⟨rfl, rfl, hmark st.runs⟩
  · have hitem' : decide (item.tenant_id = tid) = false := by
      rw [hitem]
      exact hd
    refine ⟨?_, ?_, hmark st.runs⟩
    · simp [createdFor, List.filter_append, hitem']
    · simp [callsFor, List.filter_append, hd]
  · refine ⟨rfl, ?_, Iff.rfl⟩
    simp [callsFor, List.filter_append, hd]

theorem overage_step_created_dichotomy (month : String) (price : Int)
    (T : String → Option Tenant) (create : String → Option String) (st : OvState)
    (tid' : String) (n : Int) (tid : String) :
    createdFor (overage_step month price T create st (tid', n)) tid = createdFor st tid
    ∨ (createdFor (overage_step month price T create st (tid', n)) tid = createdFor st tid + 1
        ∧ (month, tid) ∈ (overage_step month price T create st (tid', n)).runs) := by
  by_cases hne : tid' = tid
  · subst hne
    rcases overage_step_shape month price T create st tid' n with
      h | ⟨_, h⟩ | ⟨_, h⟩ | ⟨_, item, hitem, h⟩ | ⟨_, h⟩ <;> rw [h]
    · exact Or.inl rfl
    · exact Or.inl rfl
    · exact Or.inl rfl
    · refine Or.inr ⟨?_, ?_⟩
      · have hitem' : decide (item.tenant_id = tid') = true := decide_eq_true hitem
        simp [createdFor, List.filter_append, hitem']
      · exact (mem_mark_ran_overage st.runs month tid' (month, tid')).mpr (Or.inr rfl)
    · exact Or.inl rfl
  · exact Or.inl (overage_step_frame_ne month price T create st tid' n tid hne).1

theorem fold_runs_mono (month : String) (price : Int) (T : String → Option Tenant)
    (create : String → Option String) (rows : List (String × Int)) (st : OvState)
    (p : String × String) (hp : p ∈ st.runs) :
    p ∈ (List.foldl (overage_step month price T create) st rows).runs := by
  induction rows generalizing st with
  | nil => exact hp
  | cons row rest ih =>
    rw [List.foldl_cons]
    apply ih
    obtain ⟨tid, n⟩ := row
    rcases overage_step_shape month price T create st tid n with
      h | ⟨_, h⟩ | ⟨_, h⟩ | ⟨_, item, hitem, h⟩ | ⟨_, h⟩ <;> rw [h]
    · exact hp
    · exact hp
    · exact (mem_mark_ran_overage st.runs month tid p).mpr (Or.inl hp)
    · exact (mem_mark_ran_overage st.runs month tid p).mpr (Or.inl hp)
    · exact hp

theorem fold_frame_marked (month : String) (price : Int) (T : String → Option Tenant)
    (create : String → Option String) (tid : String) (rows : List (String × Int))
    (st : OvState) (hm : (month, tid) ∈ st.runs) :
    createdFor (List.foldl (overage_step month price T create) st rows) tid = createdFor st tid
    ∧ callsFor (List.foldl (overage_step month price T create) st rows) tid = callsFor st tid
    ∧ (month, tid) ∈ (List.foldl (overage_step month price T create) st rows).runs := by
  induction rows generalizing st with
  | nil => exact ⟨rfl, rfl, hm⟩
  | cons row rest ih =>
    obtain ⟨tid', n⟩ := row
    rw [List.foldl_cons]
    by_cases hne : tid' = tid
    · subst hne
      rcases overage_step_shape month price T create st tid' n with
        h | ⟨_, h⟩ | ⟨hnot, _⟩ | ⟨hnot, _⟩ | ⟨hnot, _⟩
      · rw [h]
        exact ih _ hm
      · rw [h]
        exact ih _ hm
      · exact absurd hm hnot
      · exact absurd hm hnot
      · exact absurd hm hnot
    · obtain ⟨e1, e2, e3⟩ := overage_step_frame_ne month price T create st tid' n tid hne
      obtain ⟨f1, f2, f3⟩ := ih _ (e3.mpr hm)
      exact ⟨f1.trans e1, f2.trans e2, f3⟩

theorem fold_created_le (month : String) (price : Int) (T : String → Option Tenant)
    (create : String → Option String) (tid : String) (rows : List (String × Int))
    (st : OvState) :
    createdFor (List.foldl (overage_step month price T create) st rows) tid
      ≤ createdFor st tid + 1 := by
  induction rows generalizing st with
  | nil => exact Nat.le_succ _
  | cons row rest ih =>
    obtain ⟨tid', n⟩ := row
    rw [List.foldl_cons]
    rcases overage_step_created_dichotomy month price T create st tid' n tid with
      heq | ⟨heq, hmem⟩
    · have hih := ih (overage_step month price T create st (tid', n))
      rw [heq] at hih
      exact hih
    · have := (fold_frame_marked month price T create tid rest
        (overage_step month price T create st (tid', n)) hmem).1
      rw [this, heq]

theorem fold_created_marker (month : String) (price : Int) (T : String → Option Tenant)
    (create : String → Option String) (tid : String) (rows : List (String × Int))
    (st : OvState)
    (h : ¬ (createdFor (List.foldl (overage_step month price T create) st rows) tid
        = createdFor st tid)) :
    (month, tid) ∈ (List.foldl (overage_step month price T create) st rows).runs := by
  induction rows generalizing st with
  | nil => exact absurd rfl h
  | cons row rest ih =>
    obtain ⟨tid', n⟩ := row
    rw [List.foldl_cons] at h ⊢
    rcases overage_step_created_dichotomy month price T create st tid' n tid with
      heq | ⟨heq, hmem⟩
    · apply ih
      rw [heq]
      exact h
    · exact fold_runs_mono month price T create rest _ _ hmem

theorem fold_frame_ne (month : String) (price : Int) (T : String → Option Tenant)
    (create : String → Option String) (tid : String) (rows : List (String × Int))
    (st : OvState) (hrows : ∀ r ∈ rows, r.1 ≠ tid) :
    createdFor (List.foldl (overage_step month price T create) st rows) tid = createdFor st tid
    ∧ callsFor (List.foldl (overage_step month price T create) st rows) tid = callsFor st tid
    ∧ ((month, tid) ∈ (List.foldl (overage_step month price T create) st rows).runs
        ↔ (month, tid) ∈ st.runs) := by
  induction rows generalizing st with
  | nil => exact ⟨rfl, rfl, Iff.rfl⟩
  | cons row rest ih =>
    obtain ⟨tid', n⟩ := row
    have hne : tid' ≠ tid := hrows (tid', n) (by simp)
    have hrest : ∀ r ∈ rest, r.1 ≠ tid := fun r hr => hrows r (by simp [hr])
    rw [List.foldl_cons]
    obtain ⟨e1, e2, e3⟩ := overage_step_frame_ne month price T create st tid' n tid hne
    obtain ⟨f1, f2, f3⟩ := ih _ hrest
    exact ⟨f1.trans e1, f2.trans e2, f3.trans e3⟩

theorem callsFor_calls_append (st : OvState) (tid : String) :
    callsFor { st with stripe_calls := st.stripe_calls ++ [tid] } tid
      = callsFor st tid + 1 := by
  simp [callsFor, List.filter_append]

theorem createdFor_creates_update (st : OvState) (tid : String) (item : CreatedItem)
    (runs' : List (String × String)) (h : item.tenant_id = tid) :
    createdFor
      { st with stripe_calls := st.stripe_calls ++ [tid], runs := runs',
                created := st.created ++ [item] } tid = createdFor st tid + 1 := by
  simp [createdFor, List.filter_append, h]

/-- C1: overage billing is idempotent per (month, tenant).  With the marker
already present, the loop body for that tenant only bumps the already_run
skip counter; a whole run started with the marker present makes no
stripe.InvoiceItem.create call and creates nothing for that tenant; and two
reconciliation runs in sequence for the same month create at most one
invoice line item for any tenant, never two. -/
theorem overage_billing_idempotent (month : String) (price : Int)
    (T : String → Option Tenant) (create create2 : String → Option String)
    (rows : List (String × Int)) (runs0 : List (String × String)) (tid : String)
    (st : OvState) (n : Int) :
    (tenant_customer T tid ≠ "" → (month, tid) ∈ st.runs →
      overage_step month price T create st (tid, n)
        = { st with already_run := st.already_run + 1 })
    ∧ ((month, tid) ∈ runs0 →
        createdFor (admin_stripe_add_overages month price T create rows runs0) tid = 0
        ∧ callsFor (admin_stripe_add_overages month price T create rows runs0) tid = 0)
    ∧ createdFor (admin_stripe_add_overages month price T create rows runs0) tid
      + createdFor (admin_stripe_add_overages month price T create2 rows
          (admin_stripe_add_overages month price T create rows runs0).runs) tid ≤ 1 := by
  refine ⟨fun h1 h2 => overage_step_already_ran month price T create st tid n h1 h2, ?_, ?_⟩
  · intro hm
    have h := fold_frame_marked month price T create tid rows (ov_init runs0) hm
    exact ⟨h.1, h.2.1⟩
  · have hle1 : createdFor (admin_stripe_add_overages month price T create rows runs0) tid
        ≤ 1 := fold_created_le month price T create tid rows (ov_init runs0)
    by_cases h0 : createdFor (admin_stripe_add_overages month price T create rows runs0) tid = 0
    · have hle2 : createdFor (admin_stripe_add_overages month price T create2 rows
          (admin_stripe_add_overages month price T create rows runs0).runs) tid ≤ 1 :=
        fold_created_le month price T create2 tid rows
          (ov_init (admin_stripe_add_overages month price T create rows runs0).runs)
      omega
    · have hm : (month, tid)
          ∈ (admin_stripe_add_overages month price T create rows runs0).runs :=
        fold_created_marker month price T create tid rows (ov_init runs0) h0
      have h2 : createdFor (admin_stripe_add_overages month price T create2 rows
          (admin_stripe_add_overages month price T create rows runs0).runs) tid = 0 :=
        (fold_frame_marked month price T create2 tid rows
          (ov_init (admin_stripe_add_overages month price T create rows runs0).runs) hm).1
      omega

/-- Witness for C1 with the marker already present for (2026-01, t1): the
run counts the tenant under already_run semantics — no creation, no stripe
call — and two sequential runs create at most one item. -/
theorem overage_billing_idempotent_witness :
    (createdFor (admin_stripe_add_overages "2026-01" 19
        (fun i => if i = "t1" then some
          { tenant_id := "t1", stripe_customer_id := "cus_t1",
            company_name := "First BV", company_number := "BE0123",
            virtual_number := "32460000001", retell_agent_id := "",
            plan := "basic", opening_line := "Hallo" } else Option.none)
        (fun i => if i = "t1" then some "ii_1" else Option.none)
        [("t1", 300)] [("2026-01", "t1")]) "t1" = 0
      ∧ callsFor (admin_stripe_add_overages "2026-01" 19
        (fun i => if i = "t1" then some
          { tenant_id := "t1", stripe_customer_id := "cus_t1",
            company_name := "First BV", company_number := "BE0123",
            virtual_number := "32460000001", retell_agent_id := "",
            plan := "basic", opening_line := "Hallo" } else Option.none)
        (fun i => if i = "t1" then some "ii_1" else Option.none)
        [("t1", 300)] [("2026-01", "t1")]) "t1" = 0)
    ∧ createdFor (admin_stripe_add_overages "2026-01" 19
        (fun i => if i = "t1" then some
          { tenant_id := "t1", stripe_customer_id := "cus_t1",
            company_name := "First BV", company_number := "BE0123",
            virtual_number := "32460000001", retell_agent_id := "",
            plan := "basic", opening_line := "Hallo" } else Option.none)
        (fun i => if i = "t1" then some "ii_1" else Option.none)
        [("t1", 300)] [("2026-01", "t1")]) "t1"
      + createdFor (admin_stripe_add_overages "2026-01" 19
        (fun i => if i = "t1" then some
          { tenant_id := "t1", stripe_customer_id := "cus_t1",
            company_name := "First BV", company_number := "BE0123",
            virtual_number := "32460000001", retell_agent_id := "",
            plan := "basic", opening_line := "Hallo" } else Option.none)
        (fun i => if i = "t1" then some "ii_1" else Option.none)
        [("t1", 300)]
        (admin_stripe_add_overages "2026-01" 19
          (fun i => if i = "t1" then some
            { tenant_id := "t1", stripe_customer_id := "cus_t1",
              company_name := "First BV", company_number := "BE0123",
              virtual_number := "32460000001", retell_agent_id := "",
              plan := "basic", opening_line := "Hallo" } else Option.none)
          (fun i => if i = "t1" then some "ii_1" else Option.none)
          [("t1", 300)] [("2026-01", "t1")]).runs) "t1" ≤ 1 := by
  constructor
  · exact (overage_billing_idempotent "2026-01" 19
      (fun i => if i = "t1" then some
        { tenant_id := "t1", stripe_customer_id := "cus_t1",
          company_name := "First BV", company_number := "BE0123",
          virtual_number := "32460000001", retell_agent_id := "",
          plan := "basic", opening_line := "Hallo" } else Option.none)
      (fun i => if i = "t1" then some "ii_1" else Option.none)
      (fun i => if i = "t1" then some "ii_1" else Option.none)
      [("t1", 300)] [("2026-01", "t1")] "t1" (ov_init []) 300).2.1 (by decide)
  · exact (overage_billing_idempotent "2026-01" 19
      (fun i => if i = "t1" then some
        { tenant_id := "t1", stripe_customer_id := "cus_t1",
          company_name := "First BV", company_number := "BE0123",
          virtual_number := "32460000001", retell_agent_id := "",
          plan := "basic", opening_line := "Hallo" } else Option.none)
      (fun i => if i = "t1" then some "ii_1" else Option.none)
      (fun i => if i = "t1" then some "ii_1" else Option.none)
      [("t1", 300)] [("2026-01", "t1")] "t1" (ov_init []) 300).2.2

/-- C2: billing is atomic with respect to invoicing failure.  For a tenant
whose stripe.InvoiceItem.create raises (create tid = none), the run makes
the call (callsFor = 1) but writes no OverageRun marker and adds nothing to
the created list; a later run for the same month whose invoicing call
succeeds still bills that tenant exactly once. -/
theorem billing_atomic_on_invoice_failure (month : String) (price : Int)
    (T : String → Option Tenant) (create create2 : String → Option String)
    (runs0 : List (String × String)) (tid : String) (n : Int) (iid : String)
    (l1 l2 : List (String × Int))
    (h1 : ∀ r ∈ l1, r.1 ≠ tid) (h2 : ∀ r ∈ l2, r.1 ≠ tid)
    (hm : (month, tid) ∉ runs0)
    (hc : ¬ (tenant_customer T tid = ""))
    (hx : 0 < max 0 (n - PLAN_LIMITS (tenant_plan T tid)))
    (hf : create tid = Option.none)
    (hs : create2 tid = some iid) :
    (month, tid)
      ∉ (admin_stripe_add_overages month price T create (l1 ++ (tid, n) :: l2) runs0).runs
    ∧ createdFor
        (admin_stripe_add_overages month price T create (l1 ++ (tid, n) :: l2) runs0) tid = 0
    ∧ callsFor
        (admin_stripe_add_overages month price T create (l1 ++ (tid, n) :: l2) runs0) tid = 1
    ∧ createdFor (admin_stripe_add_overages month price T create2 (l1 ++ (tid, n) :: l2)
        (admin_stripe_add_overages month price T create
          (l1 ++ (tid, n) :: l2) runs0).runs) tid = 1 := by
  have key1 : admin_stripe_add_overages month price T create (l1 ++ (tid, n) :: l2) runs0
      = List.foldl (overage_step month price T create)
          (overage_step month price T create
            (List.foldl (overage_step month price T create) (ov_init runs0) l1) (tid, n)) l2 := by
    unfold admin_stripe_add_overages
    rw [List.foldl_append, List.foldl_cons]
  obtain ⟨a1, a2, a3⟩ := fold_frame_ne month price T create tid l1 (ov_init runs0) h1
  have hm1 : (month, tid)
      ∉ (List.foldl (overage_step month price T create) (ov_init runs0) l1).runs :=
    fun hxx => hm (a3.mp hxx)
  have hstep := overage_step_create_fails month price T create
    (List.foldl (overage_step month price T create) (ov_init runs0) l1) tid n hc hm1 hx hf
  obtain ⟨b1, b2, b3⟩ := fold_frame_ne month price T create tid l2
    (overage_step month price T create
      (List.foldl (overage_step month price T create) (ov_init runs0) l1) (tid, n)) h2
  have concl1 : (month, tid)
      ∉ (admin_stripe_add_overages month price T create (l1 ++ (tid, n) :: l2) runs0).runs := by
    rw [key1]
    intro hxx
    have hmem := b3.mp hxx
    rw [hstep] at hmem
    exact hm1 hmem
  have concl2 : createdFor
      (admin_stripe_add_overages month price T create (l1 ++ (tid, n) :: l2) runs0) tid = 0 := by
    rw [key1, b1, hstep]
    exact a1
  have concl3 : callsFor
      (admin_stripe_add_overages month price T create (l1 ++ (tid, n) :: l2) runs0) tid = 1 := by
    rw [key1, b2, hstep, callsFor_calls_append]
    rw [show callsFor
        (List.foldl (overage_step month price T create) (ov_init runs0) l1) tid = 0 from a2]
  refine ⟨concl1, concl2, concl3, ?_⟩
  have key2 : admin_stripe_add_overages month price T create2 (l1 ++ (tid, n) :: l2)
      (admin_stripe_add_overages month price T create (l1 ++ (tid, n) :: l2) runs0).runs
      = List.foldl (overage_step month price T create2)
          (overage_step month price T create2
            (List.foldl (overage_step month price T create2)
              (ov_init (admin_stripe_add_overages month price T create
                (l1 ++ (tid, n) :: l2) runs0).runs) l1) (tid, n)) l2 := by
    unfold admin_stripe_add_overages
    rw [List.foldl_append, List.foldl_cons]
  obtain ⟨c1, c2, c3⟩ := fold_frame_ne month price T create2 tid l1
    (ov_init (admin_stripe_add_overages month price T create
      (l1 ++ (tid, n) :: l2) runs0).runs) h1
  have hm2 : (month, tid) ∉ (List.foldl (overage_step month price T create2)
      (ov_init (admin_stripe_add_overages month price T create
        (l1 ++ (tid, n) :: l2) runs0).runs) l1).runs :=
    fun hxx => concl1 (c3.mp hxx)
  have hstep2 := overage_step_creates month price T create2
    (List.foldl (overage_step month price T create2)
      (ov_init (admin_stripe_add_overages month price T create
        (l1 ++ (tid, n) :: l2) runs0).runs) l1) tid n iid hc hm2 hx hs
  obtain ⟨d1, d2, d3⟩ := fold_frame_ne month price T create2 tid l2
    (overage_step month price T create2
      (List.foldl (overage_step month price T create2)
        (ov_init (admin_stripe_add_overages month price T create
          (l1 ++ (tid, n) :: l2) runs0).runs) l1) (tid, n)) h2
  rw [key2, d1, hstep2, createdFor_creates_update _ _ _ _ rfl]
  rw [show createdFor (List.foldl (overage_step month price T create2)
      (ov_init (admin_stripe_add_overages month price T create
        (l1 ++ (tid, n) :: l2) runs0).runs) l1) tid = 0 from c1]

/-- Witness for C2 at a one-row month: the first run's invoicing call fails,
the retry bills exactly once. -/
theorem billing_atomic_on_invoice_failure_witness :
    (("2026-01", "t1")
      ∉ (admin_stripe_add_overages "2026-01" 19
        (fun i => if i = "t1" then some
          { tenant_id := "t1", stripe_customer_id := "cus_t1",
            company_name := "First BV", company_number := "BE0123",
            virtual_number := "32460000001", retell_agent_id := "",
            plan := "basic", opening_line := "Hallo" } else Option.none)
        (fun _ => Option.none) ([] ++ ("t1", 235) :: []) []).runs)
    ∧ createdFor (admin_stripe_add_overages "2026-01" 19
        (fun i => if i = "t1" then some
          { tenant_id := "t1", stripe_customer_id := "cus_t1",
            company_name := "First BV", company_number := "BE0123",
            virtual_number := "32460000001", retell_agent_id := "",
            plan := "basic", opening_line := "Hallo" } else Option.none)
        (fun _ => Option.none) ([] ++ ("t1", 235) :: []) []) "t1" = 0
    ∧ callsFor (admin_stripe_add_overages "2026-01" 19
        (fun i => if i = "t1" then some
          { tenant_id := "t1", stripe_customer_id := "cus_t1",
            company_name := "First BV", company_number := "BE0123",
            virtual_number := "32460000001", retell_agent_id := "",
            plan := "basic", opening_line := "Hallo" } else Option.none)
        (fun _ => Option.none) ([] ++ ("t1", 235) :: []) []) "t1" = 1
    ∧ createdFor (admin_stripe_add_overages "2026-01" 19
        (fun i => if i = "t1" then some
          { tenant_id := "t1", stripe_customer_id := "cus_t1",
            company_name := "First BV", company_number := "BE0123",
            virtual_number := "32460000001", retell_agent_id := "",
            plan := "basic", opening_line := "Hallo" } else Option.none)
        (fun i => if i = "t1" then some "ii_1" else Option.none)
        ([] ++ ("t1", 235) :: [])
        (admin_stripe_add_overages "2026-01" 19
          (fun i => if i = "t1" then some
            { tenant_id := "t1", stripe_customer_id := "cus_t1",
              company_name := "First BV", company_number := "BE0123",
              virtual_number := "32460000001", retell_agent_id := "",
              plan := "basic", opening_line := "Hallo" } else Option.none)
          (fun _ => Option.none) ([] ++ ("t1", 235) :: []) []).runs) "t1" = 1 :=
  billing_atomic_on_invoice_failure "2026-01" 19
    (fun i => if i = "t1" then some
      { tenant_id := "t1", stripe_customer_id := "cus_t1",
        company_name := "First BV", company_number := "BE0123",
        virtual_number := "32460000001", retell_agent_id := "",
        plan := "basic", opening_line := "Hallo" } else Option.none)
    (fun _ => Option.none)
    (fun i => if i = "t1" then some "ii_1" else Option.none)
    [] "t1" 235 "ii_1" [] []
    (by decide) (by decide) (by decide) (by decide) (by decide) (by decide) (by decide)

/-- C3: for a tenant with a billing account and no prior marker, the
reconciler computes extra = max 0 (outbound - plan limit); extra = 0 writes
the marker and skips under no_extra; extra > 0 creates exactly one invoice
item whose amount in cents is extra * price_cents and then writes the
marker.  Concretely: plan basic (200 included), unit price 19, usage 235
for month 2026-01 gives the single item (extra 35, amount 665), created
exactly once — a second run creates nothing further. -/
theorem reconcile_extra_and_amount (month : String) (price : Int)
    (T : String → Option Tenant) (create : String → Option String) (st : OvState)
    (tid : String) (n : Int) (iid : String) :
    (¬ (tenant_customer T tid = "") → (month, tid) ∉ st.runs →
      max 0 (n - PLAN_LIMITS (tenant_plan T tid)) = 0 →
      overage_step month price T create st (tid, n)
        = { st with no_extra := st.no_extra + 1
                    runs := mark_ran_overage st.runs month tid })
    ∧ (¬ (tenant_customer T tid = "") → (month, tid) ∉ st.runs →
        0 < max 0 (n - PLAN_LIMITS (tenant_plan T tid)) →
        create tid = some iid →
        overage_step month price T create st (tid, n)
          = { st with
              stripe_calls := st.stripe_calls ++ [tid]
              runs := mark_ran_overage st.runs month tid
              created := st.created ++
                [{ tenant_id := tid, stripe_customer_id := tenant_customer T tid,
                   extra := max 0 (n - PLAN_LIMITS (tenant_plan T tid)),
                   amount_cents := max 0 (n - PLAN_LIMITS (tenant_plan T tid)) * price,
                   invoice_item_id := iid }] })
    ∧ (admin_stripe_add_overages "2026-01" 19
        (fun i => if i = "t1" then some
          { tenant_id := "t1", stripe_customer_id := "cus_t1",
            company_name := "First BV", company_number := "BE0123",
            virtual_number := "32460000001", retell_agent_id := "",
            plan := "basic", opening_line := "Hallo" } else Option.none)
        (fun i => if i = "t1" then some "ii_1" else Option.none)
        [("t1", 235)] []).created
      = [{ tenant_id := "t1", stripe_customer_id := "cus_t1", extra := 35,
           amount_cents := 665, invoice_item_id := "ii_1" }]
    ∧ createdFor (admin_stripe_add_overages "2026-01" 19
        (fun i => if i = "t1" then some
          { tenant_id := "t1", stripe_customer_id := "cus_t1",
            company_name := "First BV", company_number := "BE0123",
            virtual_number := "32460000001", retell_agent_id := "",
            plan := "basic", opening_line := "Hallo" } else Option.none)
        (fun i => if i = "t1" then some "ii_1" else Option.none)
        [("t1", 235)]
        (admin_stripe_add_overages "2026-01" 19
          (fun i => if i = "t1" then some
            { tenant_id := "t1", stripe_customer_id := "cus_t1",
              company_name := "First BV", company_number := "BE0123",
              virtual_number := "32460000001", retell_agent_id := "",
              plan := "basic", opening_line := "Hallo" } else Option.none)
          (fun i => if i = "t1" then some "ii_1" else Option.none)
          [("t1", 235)] []).runs) "t1" = 0 := by
  refine ⟨?_, ?_, by decide, by decide⟩
  · intro hc hm h0
    exact overage_step_no_extra month price T create st tid n hc hm (le_of_eq h0)
  · intro hc hm hpos hcr
    exact overage_step_creates month price T create st tid n iid hc hm hpos hcr

/-- Witness for C3: with plan basic and price 19, usage 150 is skipped under
no_extra, and usage 235 creates one item. -/
theorem reconcile_extra_and_amount_witness :
    (overage_step "2026-01" 19
      (fun i => if i = "t1" then some
        { tenant_id := "t1", stripe_customer_id := "cus_t1",
          company_name := "First BV", company_number := "BE0123",
          virtual_number := "32460000001", retell_agent_id := "",
          plan := "basic", opening_line := "Hallo" } else Option.none)
      (fun i => if i = "t1" then some "ii_1" else Option.none)
      (ov_init []) ("t1", 150)).no_extra = 1
    ∧ (overage_step "2026-01" 19
      (fun i => if i = "t1" then some
        { tenant_id := "t1", stripe_customer_id := "cus_t1",
          company_name := "First BV", company_number := "BE0123",
          virtual_number := "32460000001", retell_agent_id := "",
          plan := "basic", opening_line := "Hallo" } else Option.none)
      (fun i => if i = "t1" then some "ii_1" else Option.none)
      (ov_init []) ("t1", 235)).created.length = 1 := by
  constructor
  · rw [(reconcile_extra_and_amount "2026-01" 19
      (fun i => if i = "t1" then some
        { tenant_id := "t1", stripe_customer_id := "cus_t1",
          company_name := "First BV", company_number := "BE0123",
          virtual_number := "32460000001", retell_agent_id := "",
          plan := "basic", opening_line := "Hallo" } else Option.none)
      (fun i => if i = "t1" then some "ii_1" else Option.none)
      (ov_init []) "t1" 150 "ii_1").1 (by decide) (by decide) (by decide)]
    decide
  · rw [(reconcile_extra_and_amount "2026-01" 19
      (fun i => if i = "t1" then some
        { tenant_id := "t1", stripe_customer_id := "cus_t1",
          company_name := "First BV", company_number := "BE0123",
          virtual_number := "32460000001", retell_agent_id := "",
          plan := "basic", opening_line := "Hallo" } else Option.none)
      (fun i => if i = "t1" then some "ii_1" else Option.none)
      (ov_init []) "t1" 235 "ii_1").2.1 (by decide) (by decide) (by decide) (by decide)]
    decide

/-- C10: a plan string that strips and lowercases to anything other than
basic or advanced — including the empty plan and a tenant missing from the
registry — gets monthly included-message limit 0, so the tenant's entire
outbound count is billable overage: extra = outbound_count and the invoice
amount is outbound_count * price_cents. -/
theorem unknown_plan_limit_zero (month : String) (price : Int)
    (T : String → Option Tenant) (create : String → Option String) (st : OvState)
    (tid : String) (n : Int) (iid : String) (t : Tenant) :
    (T tid = some t → pyLower (pyStrip t.plan) ≠ "basic" →
      pyLower (pyStrip t.plan) ≠ "advanced" → PLAN_LIMITS (tenant_plan T tid) = 0)
    ∧ (T tid = Option.none → PLAN_LIMITS (tenant_plan T tid) = 0)
    ∧ (PLAN_LIMITS (tenant_plan T tid) = 0 →
        ¬ (tenant_customer T tid = "") → (month, tid) ∉ st.runs → 0 < n →
        create tid = some iid →
        overage_step month price T create st (tid, n)
          = { st with
              stripe_calls := st.stripe_calls ++ [tid]
              runs := mark_ran_overage st.runs month tid
              created := st.created ++
                [{ tenant_id := tid, stripe_customer_id := tenant_customer T tid,
                   extra := n, amount_cents := n * price, invoice_item_id := iid }] }) := by
  refine ⟨?_, ?_, ?_⟩
  · intro hT hb ha
    have hplan : tenant_plan T tid = pyLower (pyStrip t.plan) := by
      unfold tenant_plan
      rw [hT]
      rfl
    rw [hplan]
    unfold PLAN_LIMITS
    rw [if_neg hb, if_neg ha]
  · intro hT
    unfold tenant_plan
    rw [hT]
    decide
  · intro hlim hc hm hpos hcr
    have hmax : max 0 (n - PLAN_LIMITS (tenant_plan T tid)) = n := by
      rw [hlim, sub_zero]
      exact max_eq_right (le_of_lt hpos)
    have hstep := overage_step_creates month price T create st tid n iid hc hm
      (by rw [hmax]; exact hpos) hcr
    rw [hstep, hmax]

/-- Witness for C10: a premium plan and an unregistered tenant both fall to
limit 0, and a premium tenant's whole usage of 5 is billed at 5 * 19. -/
theorem unknown_plan_limit_zero_witness :
    PLAN_LIMITS (tenant_plan
      (fun i => if i = "t1" then some
        { tenant_id := "t1", stripe_customer_id := "cus_t1",
          company_name := "First BV", company_number := "BE0123",
          virtual_number := "32460000001", retell_agent_id := "",
          plan := " Premium ", opening_line := "Hallo" } else Option.none) "t1") = 0
    ∧ PLAN_LIMITS (tenant_plan
      (fun i => if i = "t1" then some
        { tenant_id := "t1", stripe_customer_id := "cus_t1",
          company_name := "First BV", company_number := "BE0123",
          virtual_number := "32460000001", retell_agent_id := "",
          plan := " Premium ", opening_line := "Hallo" } else Option.none) "t2") = 0
    ∧ (overage_step "2026-01" 19
      (fun i => if i = "t1" then some
        { tenant_id := "t1", stripe_customer_id := "cus_t1",
          company_name := "First BV", company_number := "BE0123",
          virtual_number := "32460000001", retell_agent_id := "",
          plan := " Premium ", opening_line := "Hallo" } else Option.none)
      (fun i => if i = "t1" then some "ii_1" else Option.none)
      (ov_init []) ("t1", 5)).created
      = [{ tenant_id := "t1", stripe_customer_id := "cus_t1", extra := 5,
           amount_cents := 95, invoice_item_id := "ii_1" }] := by
  refine ⟨?_, ?_, ?_⟩
  · exact (unknown_plan_limit_zero "2026-01" 19
      (fun i => if i = "t1" then some
        { tenant_id := "t1", stripe_customer_id := "cus_t1",
          company_name := "First BV", company_number := "BE0123",
          virtual_number := "32460000001", retell_agent_id := "",
          plan := " Premium ", opening_line := "Hallo" } else Option.none)
      (fun i => if i = "t1" then some "ii_1" else Option.none)
      (ov_init []) "t1" 5 "ii_1"
      { tenant_id := "t1", stripe_customer_id := "cus_t1",
        company_name := "First BV", company_number := "BE0123",
        virtual_number := "32460000001", retell_agent_id := "",
        plan := " Premium ", opening_line := "Hallo" }).1
      (by decide) (by decide) (by decide)
  · exact (unknown_plan_limit_zero "2026-01" 19
      (fun i => if i = "t1" then some
        { tenant_id := "t1", stripe_customer_id := "cus_t1",
          company_name := "First BV", company_number := "BE0123",
          virtual_number := "32460000001", retell_agent_id := "",
          plan := " Premium ", opening_line := "Hallo" } else Option.none)
      (fun i => if i = "t1" then some "ii_1" else Option.none)
      (ov_init []) "t2" 5 "ii_1"
      { tenant_id := "t1", stripe_customer_id := "cus_t1",
        company_name := "First BV", company_number := "BE0123",
        virtual_number := "32460000001", retell_agent_id := "",
        plan := " Premium ", opening_line := "Hallo" }).2.1 (by decide)
  · rw [(unknown_plan_limit_zero "2026-01" 19
      (fun i => if i = "t1" then some
        { tenant_id := "t1", stripe_customer_id := "cus_t1",
          company_name := "First BV", company_number := "BE0123",
          virtual_number := "32460000001", retell_agent_id := "",
          plan := " Premium ", opening_line := "Hallo" } else Option.none)
      (fun i => if i = "t1" then some "ii_1" else Option.none)
      (ov_init []) "t1" 5 "ii_1"
      { tenant_id := "t1", stripe_customer_id := "cus_t1",
        company_name := "First BV", company_number := "BE0123",
        virtual_number := "32460000001", retell_agent_id := "",
        plan := " Premium ", opening_line := "Hallo" }).2.2
      (by decide) (by decide) (by decide) (by decide) (by decide)]
    decide

/-- C8: the always-acknowledge contract is broken by a JSON payload whose
message field is a truthy non-object.  Posting the payload with "message"
set to the string "hi" makes extract_receiver call .get on a str, so an
AttributeError escapes both webhook handlers and Flask answers 500, not the
claimed unconditional 200. -/
theorem webhook_attribute_error_escapes :
    sms_inbound [] Option.none "cid" "csec" (GatewayOutcome.response 200 "") true
        Option.none Option.none "2026-01"
        (PyVal.pydict [("message", PyVal.pystr "hi")]) []
      = Except.error (PyErr.otherErr "AttributeError")
    ∧ call_missed [] "cid" "csec" (GatewayOutcome.response 200 "") true
        Option.none Option.none "2026-01"
        (PyVal.pydict [("message", PyVal.pystr "hi")]) []
      = Except.error (PyErr.otherErr "AttributeError") := by
  constructor
  · rfl
  · rfl
